import Mathlib

/-!
Shallow embedding of `src/bot.py` (a Telegram bot built on telebot): the
conversation registry, the command dispatcher, the reminder flow, the
topic-chat flows, the reminder scheduler callback, and the BBC headline
fetcher. External effects (sending messages, scheduling timers) are recorded
in an explicit `BotState`; external collaborators (HTTP, HTML parsing,
random choice, the message transport) are oracle parameters.
-/

/-- Chat metadata as delivered by the transport: `message.chat.id` and
`message.chat.type` (telebot reports the kind as a string such as
"private" or "group"). -/
structure Chat where
  id : Int
  type : String
  deriving DecidableEq, Repr

/-- Inbound message: `message.chat` and `message.text`. In Telegram,
`message.text` is absent (None) for non-text messages, hence `Option`. -/
structure Message where
  chat : Chat
  text : Option String
  deriving DecidableEq, Repr

/-- Python truthiness for `message.text or default`: None and the empty
string are falsy, so both fall back to the default. -/
def pyOr (t : Option String) (d : String) : String :=
  match t with
  | none => d
  | some s => if s = "" then d else s

/-- Python `str(x)` on an optional string: `str(None)` renders as "None".
Used where the code interpolates a value that may be None into an f-string. -/
def pyStrOfOpt (t : Option String) : String :=
  match t with
  | none => "None"
  | some s => s

/-- All-digit check and decimal value for a run of characters; `none` when
empty or any character is not an ASCII digit. -/
def parseDigits (cs : List Char) : Option Nat :=
  if cs = [] then none
  else if cs.all Char.isDigit then
    some (cs.foldl (fun n c => n * 10 + (c.toNat - 48)) 0)
  else none

/-- Strip leading and trailing whitespace from a character list, as the
whitespace stripping `int(s)` performs. -/
def pyStrip (cs : List Char) : List Char :=
  ((cs.dropWhile Char.isWhitespace).reverse.dropWhile Char.isWhitespace).reverse

/-- Python `int(s)` on a string (ASCII model): surrounding whitespace is
stripped, an optional sign is allowed, then a nonempty digit run; `none`
models ValueError. -/
def pyInt (s : String) : Option Int :=
  match pyStrip s.data with
  | '-' :: rest => (parseDigits rest).map (fun n => -(n : Int))
  | '+' :: rest => (parseDigits rest).map (fun n => (n : Int))
  | cs => (parseDigits cs).map (fun n => (n : Int))

/-- Pending continuation: which next-step handler was registered via
`bot.register_next_step_handler`, with the extra argument it closes over
(only `set_reminder` receives one: the reminder text from the previous
step, which is `message.text` and may be None). -/
inductive Continuation where
  | getMin : Continuation
  | setReminder : Option String → Continuation
  | sportsType : Continuation
  | favoriteTeam : Continuation
  | currentSeason : Continuation
  | nextSport : Continuation
  | newSport : Continuation
  | newHobby : Continuation
  | bookType : Continuation
  | favBook : Continuation
  | favType : Continuation
  | favSong : Continuation
  | artist : Continuation
  | eventArt : Continuation
  deriving DecidableEq, Repr

/-- One-shot reminder job created by `schedule_reminder`: chat, delay in
seconds (`minutes * 60`, measured from the scheduling call), and the text
the closure captured (the str parameter actually receives `message.text`
of the first flow step, which may be None). -/
structure ReminderTask where
  chatId : Int
  delaySeconds : Int
  text : Option String
  deriving DecidableEq, Repr

/-- Observable bot state: the per-chat next-step registry, the outstanding
reminder timers in creation order, and the transcript of outbound sends
(chat id and text) in send order. -/
structure BotState where
  registry : Int → Option Continuation
  timers : List ReminderTask
  outbox : List (Int × String)

/-- Initial state: no pending continuations, no timers, nothing sent. -/
def st0 : BotState :=
  { registry := fun _ => none, timers := [], outbox := [] }

/-- Record `bot.send_message(chat_id, text)` (reply markup, a UI hint on
some sends, carries no text and is not modelled). -/
def sendMessage (s : BotState) (chatId : Int) (text : String) : BotState :=
  { s with outbox := s.outbox ++ [(chatId, text)] }

/-- Record `bot.reply_to(message, text)`: a send to the same chat. -/
def reply_to (s : BotState) (m : Message) (text : String) : BotState :=
  sendMessage s m.chat.id text

/-- Record `bot.register_next_step_handler(msg, handler, ...)`: install the
continuation for the chat of `msg` (every call site passes a message in the
handled chat). In this program each step registers at most one handler, so
the per-chat entry is a single optional continuation. -/
def register_next_step (s : BotState) (chatId : Int) (k : Continuation) : BotState :=
  { s with registry := fun c => if c = chatId then some k else s.registry c }

/-- Modelled from the spec: the conversation registry consume operation.
The registry itself lives inside the telebot library (not under src/);
spec section 4.1 specifies `take(chatId)` as atomically retrieving and
clearing the pending continuation, returning none when nothing is pending.
telebot pops the next-step handlers of a chat before invoking them, which
this models. -/
def take (s : BotState) (c : Int) : Option Continuation × BotState :=
  (s.registry c,
   { s with registry := fun c' => if c' = c then none else s.registry c' })

/-- Body of `schedule_reminder(chat_id, minutes, text)`: create a one-shot
`threading.Timer(minutes * 60, send)` and start it. The timer is recorded
as an outstanding task; the logging call has no observable effect. -/
def schedule_reminder (s : BotState) (chatId : Int) (minutes : Int)
    (text : Option String) : BotState :=
  { s with timers := s.timers ++ [⟨chatId, minutes * 60, text⟩] }

/-- Text the `send` closure inside `schedule_reminder` delivers when the
timer fires: the f-string `Reminder: ...` applied to the captured text. -/
def reminderMessage (t : ReminderTask) : String :=
  "Reminder: " ++ pyStrOfOpt t.text

/-! ## Utilities: the BBC headline fetcher -/

/-- Python constant `MAX_NEWS_ITEMS`. -/
def MAX_NEWS_ITEMS : Int := 10

/-- Cleaning loop of `fetch_bbc_headlines`: skip strings shorter than 5,
skip duplicates already collected, and stop once the collection reaches
`limit` (the Python break testing `len(cleaned) >= limit` runs after the
append, so one element is collected even when `limit <= 0`). -/
def cleanLoop (limit : Int) (acc : List String) : List String → List String
  | [] => acc
  | h :: rest =>
    if h.length < 5 then cleanLoop limit acc rest
    else if h ∈ acc then cleanLoop limit acc rest
    else
      let acc' := acc ++ [h]
      if limit ≤ (acc'.length : Int) then acc'
      else cleanLoop limit acc' rest

/-- Body of `fetch_bbc_headlines(limit)`. The two fallible external steps
are oracles: `http` is the outcome of `requests.get` plus
`raise_for_status` (error carries `str(e)`), and `parse` is the outcome of
the BeautifulSoup h3 extraction on the page text (error carries `str(e)`).
Both try blocks convert an exception into a one-element explanatory list. -/
def fetch_bbc_headlines (limit : Int) (http : Except String String)
    (parse : String → Except String (List String)) : List String :=
  match http with
  | .error e => ["Could not fetch news: " ++ e]
  | .ok page =>
    match parse page with
    | .error e => ["Error parsing news page: " ++ e]
    | .ok headlines =>
      let cleaned := cleanLoop limit [] headlines
      if cleaned = [] then ["No headlines found."] else cleaned

/-! ## Environment oracles for the external collaborators -/

/-- Outcomes of the external collaborators during a run: the HTTP fetch,
the HTML parse, and the index `random.choice` picks from the quote list. -/
structure Env where
  http : Except String String
  parse : String → Except String (List String)
  randIndex : Nat

/-! ## Static command handlers -/

/-- Handler for /start. -/
def start (s : BotState) (m : Message) : BotState :=
  reply_to s m "Hello — this is Artificix bot. Use /help for available commands."

/-- Handler for /help. -/
def help_cmd (s : BotState) (m : Message) : BotState :=
  sendMessage s m.chat.id
    ("Here are the possible commands:\n/alert - set a reminder\n/chat - start an interactive chat\n/news - get latest news headlines\n/about - about this bot\n/contact - contact links\n/quote - random quote\n/extra - extra commands (private chats only)\n")

/-- Handler for /about. -/
def about (s : BotState) (m : Message) : BotState :=
  sendMessage s m.chat.id
    "Hi — I\x27m @Artificix_prototype_bot. I\x27m a simple Telegram bot that can set alerts and chat with you."

/-- Handler for /contact. -/
def contact (s : BotState) (m : Message) : BotState :=
  sendMessage s m.chat.id
    "You can contact us at https://t.me/Sneh_Joshi or https://t.me/Itachi98089"

/-- Quote list. -/
def quotes : List String :=
  ["Life is abundant, and life is beautiful. - Alice Walker",
   "Keep your head high, keep your chin up, and most importantly, keep smiling. - Marilyn Monroe",
   "I think being in love with life is a key to eternal youth. - Doug Hutchison",
   "Life is beautiful and so are you. - Debasish Mridha",
   "The purpose of our lives is to be happy. - Dalai Lama",
   "Life is really simple, but we insist on making it complicated. - Confucius",
   "Life is like riding a bicycle. To keep your balance, you must keep moving. - Albert Einstein"]

/-- Handler for /quote: `random.choice(quotes)`, the choice supplied by the
environment oracle. -/
def send_quote (env : Env) (s : BotState) (m : Message) : BotState :=
  reply_to s m (quotes.getD (env.randIndex % quotes.length) "")

/-! ## Extra commands (private only) -/

/-- Handler for /extra: list the sub-commands in private chats, refuse in
group chats. -/
def extra (s : BotState) (m : Message) : BotState :=
  if m.chat.type = "private" then
    sendMessage s m.chat.id
      "Here are the extra commands:\n/flower, /animal, /food, /wonder, /vehicle, /country"
  else
    sendMessage s m.chat.id
      "The /extra command and its subcommands are not available in group chats."

/-- Helper `send_list_privately(msg, items)`: refuse outside private chats,
otherwise send every item as its own message. -/
def send_list_privately (s : BotState) (m : Message) (items : List String) : BotState :=
  if m.chat.type ≠ "private" then
    sendMessage s m.chat.id "This command is only available in private chats."
  else
    items.foldl (fun st item => sendMessage st m.chat.id item) s

/-- Item list of /flower. -/
def flowers : List String :=
  ["Rose", "Lily", "Daisy", "Tulip", "Sunflower", "Orchid", "Carnation",
   "Peony", "Chrysanthemum", "Hydrangea", "Iris", "Poppy", "Marigold", "Gerbera"]

/-- Handler for /flower. -/
def flower (s : BotState) (m : Message) : BotState :=
  send_list_privately s m flowers

/-- Item list of /animal. -/
def animals : List String :=
  ["Lion", "Tiger", "Elephant", "Giraffe", "Hippopotamus", "Crocodile",
   "Monkey", "Kangaroo", "Penguin", "Zebra", "Hedgehog", "Panda", "Koala", "Gorilla"]

/-- Handler for /animal. -/
def animal (s : BotState) (m : Message) : BotState :=
  send_list_privately s m animals

/-- Item list of /food. -/
def foods : List String :=
  ["Pizza", "Burger", "Taco", "Sushi", "Pasta", "Fried Chicken", "Steak",
   "Noodle Soup", "Hotdog", "Ramen"]

/-- Handler for /food. -/
def food (s : BotState) (m : Message) : BotState :=
  send_list_privately s m foods

/-- Item list of /vehicle. -/
def vehicles : List String :=
  ["Car", "Truck", "Motorcycle", "Bicycle", "Boat", "Airplane",
   "Helicopter", "Train", "Bus", "Scooter"]

/-- Handler for /vehicle. -/
def vehicle (s : BotState) (m : Message) : BotState :=
  send_list_privately s m vehicles

/-- Item list of /country. -/
def countries : List String :=
  ["USA", "Canada", "UK", "Germany", "France", "Italy", "Japan", "China",
   "Brazil", "Russia", "India"]

/-- Handler for /country. -/
def country (s : BotState) (m : Message) : BotState :=
  send_list_privately s m countries

/-- Item list of /wonder. -/
def wonders : List String :=
  ["Great Pyramid of Giza", "Hanging Gardens of Babylon",
   "Temple of Artemis at Ephesus", "Statue of Zeus at Olympia",
   "Mausoleum at Halicarnassus", "Colossus of Rhodes", "Lighthouse of Alexandria"]

/-- Handler for /wonder. -/
def wonder (s : BotState) (m : Message) : BotState :=
  send_list_privately s m wonders

/-! ## Alert (reminder) flow -/

/-- Handler for /alert: prompt for the reminder text and register `get_min`
as the next step for this chat. -/
def get_name (s : BotState) (m : Message) : BotState :=
  let s := sendMessage s m.chat.id "What should I remind you about?"
  register_next_step s m.chat.id Continuation.getMin

/-- Second step of the alert flow: prompt for the duration and register
`set_reminder` with the text of the current message as its extra argument. -/
def get_min (s : BotState) (m : Message) : BotState :=
  let s := sendMessage s m.chat.id "In how many minutes? (Please enter time in minutes)"
  register_next_step s m.chat.id (Continuation.setReminder m.text)

/-- Final step of the alert flow: `int(message.text)` inside a
try/except ValueError. A non-integer string raises ValueError and is
answered with an error reply; a parsed value of at most 0 gets an error
reply; otherwise a confirmation is sent and the reminder scheduled. When
`message.text` is None, `int(None)` raises TypeError, which the
ValueError clause does not catch: the handler raises, modelled as `none`. -/
def set_reminder (s : BotState) (m : Message) (reminder_text : Option String) :
    Option BotState :=
  match m.text with
  | none => none
  | some t =>
    match pyInt t with
    | none =>
      some (reply_to s m "Invalid number of minutes. Please enter a positive integer.")
    | some minutes =>
      if minutes ≤ 0 then
        some (reply_to s m "Please enter a positive number of minutes.")
      else
        let s := sendMessage s m.chat.id
          ("Reminder set for " ++ toString minutes ++ " minutes: " ++ pyStrOfOpt reminder_text)
        some (schedule_reminder s m.chat.id minutes reminder_text)

/-! ## News command -/

/-- Handler for /news: refused outside private chats; otherwise fetch the
headlines (default limit) and send each as its own message. -/
def send_news (env : Env) (s : BotState) (m : Message) : BotState :=
  if m.chat.type ≠ "private" then
    sendMessage s m.chat.id "News is not available in group chats."
  else
    (fetch_bbc_headlines MAX_NEWS_ITEMS env.http env.parse).foldl
      (fun st item => sendMessage st m.chat.id item) s

/-! ## Chat keyboard flow -/

/-- Handler for /chat: greet and show the four-topic keyboard (the keyboard
markup carries no text and is not modelled). -/
def send_welcome (s : BotState) (m : Message) : BotState :=
  reply_to s m
    "Hi there! I\x27m a chatbot that can chat with you about your interests. Choose an option:"

/-- Step after the sport-kind prompt. -/
def handle_sports_type (s : BotState) (m : Message) : BotState :=
  let s := reply_to s m "Nice! What\x27s your favorite team?"
  register_next_step s m.chat.id Continuation.favoriteTeam

/-- Step after the favorite-team prompt. -/
def handle_favorite_team (s : BotState) (m : Message) : BotState :=
  let s := reply_to s m "Great choice! What do you think of their current season so far?"
  register_next_step s m.chat.id Continuation.currentSeason

/-- Step after the current-season prompt. -/
def handle_current_season (s : BotState) (m : Message) : BotState :=
  let s := reply_to s m "Do you think they can improve ?"
  register_next_step s m.chat.id Continuation.nextSport

/-- Step after the improvement prompt. -/
def handle_next_sport (s : BotState) (m : Message) : BotState :=
  let s := reply_to s m "What else sports you are interested in?"
  register_next_step s m.chat.id Continuation.newSport

/-- Step after the what-else-sports prompt: the one interpolating step,
`'have you taken part in ' + (message.text or 'that sport') + '?'`. -/
def handle_new_sport (s : BotState) (m : Message) : BotState :=
  let s := reply_to s m ("have you taken part in " ++ pyOr m.text "that sport" ++ "?")
  register_next_step s m.chat.id Continuation.newHobby

/-- Terminal step of the Sports chain. -/
def handle_new_hobby (s : BotState) (m : Message) : BotState :=
  reply_to s m "Great to know!"

/-- Step after the book-kind prompt. -/
def handle_book_type (s : BotState) (m : Message) : BotState :=
  let s := reply_to s m "What is your favourite book?"
  register_next_step s m.chat.id Continuation.favBook

/-- Terminal step of the Reading chain. -/
def handle_fav_book (s : BotState) (m : Message) : BotState :=
  reply_to s m "Great to know"

/-- Step after the music-kind prompt. -/
def handle_fav_type (s : BotState) (m : Message) : BotState :=
  let s := reply_to s m "Amazing choice. What\x27s your fav song?"
  register_next_step s m.chat.id Continuation.favSong

/-- Terminal step of the Music chain. -/
def handle_fav_song (s : BotState) (m : Message) : BotState :=
  reply_to s m "Great choice!"

/-- Step after the artist prompt. -/
def handle_artist (s : BotState) (m : Message) : BotState :=
  let s := reply_to s m "Have you taken part in any art event?"
  register_next_step s m.chat.id Continuation.eventArt

/-- Terminal step of the Art chain. -/
def handle_event_art (s : BotState) (m : Message) : BotState :=
  reply_to s m "Great to know!"

/-- Catch-all free-text handler (func lambda True): branch on the four
keyboard keywords; any other text falls through and is ignored. -/
def handle_message (s : BotState) (m : Message) : BotState :=
  let text := pyOr m.text ""
  if text = "Sports" then
    let s := reply_to s m "Great choice! What kind of sports are you interested in?"
    register_next_step s m.chat.id Continuation.sportsType
  else if text = "Reading" then
    let s := reply_to s m "Awesome! What kind of books do you like to read?"
    register_next_step s m.chat.id Continuation.bookType
  else if text = "Music" then
    let s := reply_to s m "Cool! What kind of music do you like to listen to?"
    register_next_step s m.chat.id Continuation.favType
  else if text = "Art" then
    let s := reply_to s m "Awesome! Are you an artist?"
    register_next_step s m.chat.id Continuation.artist
  else s

/-! ## Dispatcher -/

/-- Run the continuation a registered next-step handler stands for.
`set_reminder` can raise (None text), hence the Option result; every other
handler returns normally. -/
def runCont (k : Continuation) (s : BotState) (m : Message) : Option BotState :=
  match k with
  | .getMin => some (get_min s m)
  | .setReminder t => set_reminder s m t
  | .sportsType => some (handle_sports_type s m)
  | .favoriteTeam => some (handle_favorite_team s m)
  | .currentSeason => some (handle_current_season s m)
  | .nextSport => some (handle_next_sport s m)
  | .newSport => some (handle_new_sport s m)
  | .newHobby => some (handle_new_hobby s m)
  | .bookType => some (handle_book_type s m)
  | .favBook => some (handle_fav_book s m)
  | .favType => some (handle_fav_type s m)
  | .favSong => some (handle_fav_song s m)
  | .artist => some (handle_artist s m)
  | .eventArt => some (handle_event_art s m)

/-- Command token of a text: for a text starting with the slash marker, the
run up to a space or @ (telebot command matching); otherwise none. -/
def commandOf (t : String) : Option String :=
  match t.data with
  | '/' :: rest => some (String.mk (rest.takeWhile (fun c => c ≠ ' ' ∧ c ≠ '@')))
  | _ => none

/-- Static command table built from the message-handler decorators, in
registration order. -/
def commandHandler (c : String) : Option (Env → BotState → Message → BotState) :=
  if c = "start" then some (fun _ => start)
  else if c = "help" then some (fun _ => help_cmd)
  else if c = "about" then some (fun _ => about)
  else if c = "contact" then some (fun _ => contact)
  else if c = "quote" then some send_quote
  else if c = "extra" then some (fun _ => extra)
  else if c = "flower" then some (fun _ => flower)
  else if c = "animal" then some (fun _ => animal)
  else if c = "food" then some (fun _ => food)
  else if c = "vehicle" then some (fun _ => vehicle)
  else if c = "country" then some (fun _ => country)
  else if c = "wonder" then some (fun _ => wonder)
  else if c = "alert" then some (fun _ => get_name)
  else if c = "news" then some send_news
  else if c = "chat" then some (fun _ => send_welcome)
  else none

/-- Process one inbound message the way telebot routes it: a pending
next-step handler for the chat is taken (retrieved and cleared) and run
first; otherwise a matching command handler runs; otherwise the catch-all
text handler runs (it also receives unknown /commands, which it ignores).
Non-text messages reach only next-step handlers, matching the default
text-only content-type filter of the decorated handlers. -/
def processMessage (env : Env) (s : BotState) (m : Message) : Option BotState :=
  match take s m.chat.id with
  | (some k, s') => runCont k s' m
  | (none, _) =>
    match commandOf (pyOr m.text "") with
    | some c =>
      match commandHandler c with
      | some h => some (h env s m)
      | none => some (handle_message s m)
    | none => some (handle_message s m)

/-- Run a sequence of inbound messages from a state; `none` when a handler
raises along the way. -/
def runTrace (env : Env) (s : BotState) : List Message → Option BotState
  | [] => some s
  | m :: ms =>
    match processMessage env s m with
    | none => none
    | some s' => runTrace env s' ms

/-! ## Timer firing -/

/-- Body of the `send` closure in `schedule_reminder`, executed when the
timer fires: try to send the reminder text; any exception from the
transport is caught, logged and swallowed. The transport outcome is the
oracle argument; the result records whether a failure was logged. The
closure always returns normally. -/
def fireSend (t : ReminderTask) (transport : Int → String → Except String Unit) : Bool :=
  match transport t.chatId (reminderMessage t) with
  | .ok _ => false
  | .error _ => true

/-- Firing of one outstanding `threading.Timer`: a started timer runs its
callback exactly once and is then finished (one-shot), so firing removes
the task from the outstanding list, runs `fireSend`, and creates no new
timer. Returns the remaining tasks and the logged-failure flag. -/
def fireTimer (pending : List ReminderTask) (t : ReminderTask)
    (transport : Int → String → Except String Unit) : List ReminderTask × Bool :=
  (pending.erase t, fireSend t transport)

/-! ## Helper constructions used by the verification -/

/-- Text message from a chat with the given id and chat kind. -/
def textMsg (c : Int) (ty t : String) : Message :=
  { chat := { id := c, type := ty }, text := some t }

/-- Arbitrary fixed message used to observe step behaviour. -/
def dummyMsg : Message :=
  { chat := { id := 0, type := "private" }, text := some "x" }

/-- Arbitrary fixed environment for traces whose handlers ignore it. -/
def envDefault : Env :=
  { http := Except.error "offline", parse := fun _ => Except.error "unused", randIndex := 0 }

/-- Whether the second list is a leading segment of the first argument
swapped: `leadMatch pat cs` holds when `cs` starts with `pat`. -/
def leadMatch : List Char → List Char → Bool
  | [], _ => true
  | _ :: _, [] => false
  | a :: as, b :: bs => a == b && leadMatch as bs

/-- Whether `pat` occurs contiguously somewhere in the list. -/
def occursIn (pat : List Char) : List Char → Bool
  | [] => leadMatch pat []
  | c :: cs => leadMatch pat (c :: cs) || occursIn pat cs

/-- Whether `pat` occurs as a contiguous substring of `s`. -/
def containsStr (s pat : String) : Bool :=
  occursIn pat.data s.data

/-- Successor a continuation registers when its step runs on message `m`
from the pristine state: the registry entry for the chat of `m` after the
step, or none when the step terminates the flow (or raises). -/
def nextContM (m : Message) (k : Continuation) : Option Continuation :=
  (runCont k st0 m).bind (fun s => s.registry m.chat.id)

/-- Chain of steps reachable from a continuation by repeatedly following
`nextContM` under message `m`, with fuel. -/
def chainListM (m : Message) : Continuation → Nat → List Continuation
  | k, 0 => [k]
  | k, Nat.succ n =>
    match nextContM m k with
    | none => [k]
    | some k' => k :: chainListM m k' n

/-! ## Helper lemmas -/

/-- Evaluation of the Python int parse on the literal "30". -/
theorem pyInt_30 : pyInt "30" = some 30 := rfl

/-- Evaluation of the Python int parse on the literal "abc". -/
theorem pyInt_abc : pyInt "abc" = none := rfl

/-- Evaluation of the Python int parse on the literal "-5". -/
theorem pyInt_neg5 : pyInt "-5" = some (-5) := rfl

/-- Sending all items of a list appends them to the outbox in order. -/
theorem foldl_send_outbox (c : Int) (items : List String) (s : BotState) :
    (items.foldl (fun st item => sendMessage st c item) s).outbox
      = s.outbox ++ items.map (fun t => (c, t)) := by
  induction items generalizing s with
  | nil => simp
  | cons h t ih =>
    rw [List.foldl_cons, ih]
    simp [sendMessage]

/-! ## Claim theorems -/

/-- C1: a pending continuation is consumed exactly once. After `take`
retrieves a continuation for a chat, a second `take` before any new
registration returns none; `take` clears the entry; and the dispatcher
invokes a registered continuation through `take`, so the entry is cleared
exactly when the step is dispatched. -/
theorem take_consumes_continuation (s : BotState) (c : Int) (env : Env)
    (m : Message) (k : Continuation) :
    (take (take s c).2 c).1 = none
    ∧ (take s c).2.registry c = none
    ∧ processMessage env (register_next_step s m.chat.id k) m
        = runCont k (take (register_next_step s m.chat.id k) m.chat.id).2 m := by
  refine ⟨?_, ?_, ?_⟩ <;> simp [take, register_next_step, processMessage]

/-- C2: the reminder-flow happy path. For any chat, the trace /alert,
"buy milk", "30" schedules exactly one ReminderTask with a delay of
exactly 30 times 60 seconds and body "buy milk", sends the two prompts and
the confirmation, leaves no pending continuation, and the fired task
delivers exactly the text "Reminder: buy milk". -/
theorem reminder_happy_path (c : Int) (ty : String) (env : Env) :
    (runTrace env st0 [textMsg c ty "/alert", textMsg c ty "buy milk", textMsg c ty "30"]).map
        (fun s => (s.timers, s.outbox, s.registry c))
      = some ([{ chatId := c, delaySeconds := 30 * 60, text := some "buy milk" }],
              [(c, "What should I remind you about?"),
               (c, "In how many minutes? (Please enter time in minutes)"),
               (c, "Reminder set for 30 minutes: buy milk")],
              none)
    ∧ reminderMessage { chatId := c, delaySeconds := 30 * 60, text := some "buy milk" }
        = "Reminder: buy milk" := by
  constructor
  · simp [runTrace, processMessage, take, st0, textMsg, pyOr, commandOf, commandHandler,
      get_name, register_next_step, sendMessage, runCont, get_min, set_reminder, pyInt_30,
      reply_to, schedule_reminder, pyStrOfOpt]
    rfl
  · rfl

/-- C3: a minutes-step input that fails integer parsing or parses to an
integer at most 0 yields exactly one error reply to the chat, schedules no
task, sends no confirmation, and registers no successor continuation: the
resulting state differs from the incoming one only by the single error
message appended to the outbox. -/
theorem set_reminder_bad_input_terminates (s : BotState) (m : Message)
    (rt : Option String) (txt : String) (hm : m.text = some txt)
    (hbad : pyInt txt = none ∨ ∃ k, pyInt txt = some k ∧ k ≤ 0) :
    set_reminder s m rt
      = some { s with outbox := s.outbox ++
          [(m.chat.id,
            if pyInt txt = none then
              "Invalid number of minutes. Please enter a positive integer."
            else "Please enter a positive number of minutes.")] } := by
  rcases hbad with h | ⟨k, hk, hk0⟩
  · simp [set_reminder, hm, h, reply_to, sendMessage]
  · simp [set_reminder, hm, hk, hk0, reply_to, sendMessage]

/-- C3 witness: concrete evaluations at the inputs "abc" and "-5". -/
theorem set_reminder_bad_input_terminates_witness :
    set_reminder st0 (textMsg 0 "private" "abc") (some "milk")
        = some { st0 with outbox := [(0, "Invalid number of minutes. Please enter a positive integer.")] }
    ∧ set_reminder st0 (textMsg 0 "private" "-5") (some "milk")
        = some { st0 with outbox := [(0, "Please enter a positive number of minutes.")] } := by
  constructor
  · have h := set_reminder_bad_input_terminates st0 (textMsg 0 "private" "abc") (some "milk")
      "abc" rfl (Or.inl rfl)
    simpa [st0, textMsg, pyInt_abc] using h
  · have h := set_reminder_bad_input_terminates st0 (textMsg 0 "private" "-5") (some "milk")
      "-5" rfl (Or.inr ⟨-5, rfl, by norm_num⟩)
    simpa [st0, textMsg, pyInt_neg5] using h

/-- C4 (counterexample): at the sport-name step, the step answering the
prompt asking what kind of sports the user is interested in, the reply
"Baseball" is answered by the fixed favorite-team prompt, which does not
embed "Baseball": the interpolation claimed for this step does not happen
here. -/
theorem sport_name_step_not_interpolated :
    (runTrace envDefault st0 [textMsg 0 "private" "Sports", textMsg 0 "private" "Baseball"]).map
        (fun s => s.outbox)
      = some [(0, "Great choice! What kind of sports are you interested in?"),
              (0, "Nice! What\x27s your favorite team?")]
    ∧ containsStr "Nice! What\x27s your favorite team?" "Baseball" = false := by
  exact ⟨rfl, rfl⟩

/-- C4 (amended): the interpolation happens at the what-else-sports step.
After selecting "Sports" and giving arbitrary replies to the four fixed
prompts, replying "Baseball" to the prompt asking what else sports the
user is interested in makes the very next prompt literally embed
"Baseball". -/
theorem sports_interpolation_at_what_else_step (c : Int) (ty r1 r2 r3 r4 : String)
    (env : Env) :
    (runTrace env st0 [textMsg c ty "Sports", textMsg c ty r1, textMsg c ty r2,
        textMsg c ty r3, textMsg c ty r4, textMsg c ty "Baseball"]).map
        (fun s => s.outbox)
      = some [(c, "Great choice! What kind of sports are you interested in?"),
              (c, "Nice! What\x27s your favorite team?"),
              (c, "Great choice! What do you think of their current season so far?"),
              (c, "Do you think they can improve ?"),
              (c, "What else sports you are interested in?"),
              (c, "have you taken part in Baseball?")]
    ∧ containsStr "have you taken part in Baseball?" "Baseball" = true := by
  constructor
  · simp [runTrace, processMessage, take, st0, textMsg, pyOr, commandOf, handle_message,
      register_next_step, sendMessage, reply_to, runCont, handle_sports_type,
      handle_favorite_team, handle_current_season, handle_next_sport, handle_new_sport]
  · rfl

/-- Successor registered by the sport-kind step, for every message. -/
theorem nextContM_sportsType (m : Message) :
    nextContM m Continuation.sportsType = some Continuation.favoriteTeam := by
  simp [nextContM, runCont, handle_sports_type, register_next_step, reply_to, sendMessage, st0]

/-- Successor registered by the favorite-team step, for every message. -/
theorem nextContM_favoriteTeam (m : Message) :
    nextContM m Continuation.favoriteTeam = some Continuation.currentSeason := by
  simp [nextContM, runCont, handle_favorite_team, register_next_step, reply_to, sendMessage, st0]

/-- Successor registered by the current-season step, for every message. -/
theorem nextContM_currentSeason (m : Message) :
    nextContM m Continuation.currentSeason = some Continuation.nextSport := by
  simp [nextContM, runCont, handle_current_season, register_next_step, reply_to, sendMessage, st0]

/-- Successor registered by the improvement step, for every message. -/
theorem nextContM_nextSport (m : Message) :
    nextContM m Continuation.nextSport = some Continuation.newSport := by
  simp [nextContM, runCont, handle_next_sport, register_next_step, reply_to, sendMessage, st0]

/-- Successor registered by the what-else-sports step, for every message. -/
theorem nextContM_newSport (m : Message) :
    nextContM m Continuation.newSport = some Continuation.newHobby := by
  simp [nextContM, runCont, handle_new_sport, register_next_step, reply_to, sendMessage, st0]

/-- The final Sports step registers no successor. -/
theorem nextContM_newHobby (m : Message) :
    nextContM m Continuation.newHobby = none := by
  simp [nextContM, runCont, handle_new_hobby, reply_to, sendMessage, st0]

/-- Successor registered by the book-kind step, for every message. -/
theorem nextContM_bookType (m : Message) :
    nextContM m Continuation.bookType = some Continuation.favBook := by
  simp [nextContM, runCont, handle_book_type, register_next_step, reply_to, sendMessage, st0]

/-- The final Reading step registers no successor. -/
theorem nextContM_favBook (m : Message) :
    nextContM m Continuation.favBook = none := by
  simp [nextContM, runCont, handle_fav_book, reply_to, sendMessage, st0]

/-- Successor registered by the music-kind step, for every message. -/
theorem nextContM_favType (m : Message) :
    nextContM m Continuation.favType = some Continuation.favSong := by
  simp [nextContM, runCont, handle_fav_type, register_next_step, reply_to, sendMessage, st0]

/-- The final Music step registers no successor. -/
theorem nextContM_favSong (m : Message) :
    nextContM m Continuation.favSong = none := by
  simp [nextContM, runCont, handle_fav_song, reply_to, sendMessage, st0]

/-- Successor registered by the artist step, for every message. -/
theorem nextContM_artist (m : Message) :
    nextContM m Continuation.artist = some Continuation.eventArt := by
  simp [nextContM, runCont, handle_artist, register_next_step, reply_to, sendMessage, st0]

/-- The final Art step registers no successor. -/
theorem nextContM_eventArt (m : Message) :
    nextContM m Continuation.eventArt = none := by
  simp [nextContM, runCont, handle_event_art, reply_to, sendMessage, st0]

/-- C5 (counterexample): the Sports chain is a linear sequence of 6 steps,
not at most 5, and the prompt of its what-else-sports step is not fixed:
it differs between two replies. -/
theorem sports_chain_exceeds_five_steps :
    (chainListM dummyMsg Continuation.sportsType 10).length = 6
    ∧ ¬ ((chainListM dummyMsg Continuation.sportsType 10).length ≤ 5)
    ∧ (handle_new_sport st0 (textMsg 0 "private" "Football")).outbox
        ≠ (handle_new_sport st0 (textMsg 0 "private" "Chess")).outbox := by
  refine ⟨rfl, by decide, by decide⟩

/-- C5 (amended): every topic-chat chain is a linear sequence of at most 6
and at least 2 steps after the keyword step: for every message, each
non-final step registers exactly the one successor listed, the final step
registers no successor and sends a closing acknowledgment, the Sports
chain has 6 steps and the Reading, Music and Art chains have 2; the
prompts are message-independent except the interpolating what-else-sports
step of the Sports chain. -/
theorem topic_chains_linear_bounded (m : Message) :
    (nextContM m Continuation.sportsType = some Continuation.favoriteTeam
      ∧ nextContM m Continuation.favoriteTeam = some Continuation.currentSeason
      ∧ nextContM m Continuation.currentSeason = some Continuation.nextSport
      ∧ nextContM m Continuation.nextSport = some Continuation.newSport
      ∧ nextContM m Continuation.newSport = some Continuation.newHobby
      ∧ nextContM m Continuation.newHobby = none)
    ∧ (nextContM m Continuation.bookType = some Continuation.favBook
      ∧ nextContM m Continuation.favBook = none)
    ∧ (nextContM m Continuation.favType = some Continuation.favSong
      ∧ nextContM m Continuation.favSong = none)
    ∧ (nextContM m Continuation.artist = some Continuation.eventArt
      ∧ nextContM m Continuation.eventArt = none)
    ∧ chainListM dummyMsg Continuation.sportsType 10
        = [Continuation.sportsType, Continuation.favoriteTeam, Continuation.currentSeason,
           Continuation.nextSport, Continuation.newSport, Continuation.newHobby]
    ∧ chainListM dummyMsg Continuation.bookType 10
        = [Continuation.bookType, Continuation.favBook]
    ∧ chainListM dummyMsg Continuation.favType 10
        = [Continuation.favType, Continuation.favSong]
    ∧ chainListM dummyMsg Continuation.artist 10
        = [Continuation.artist, Continuation.eventArt]
    ∧ (∀ ch ∈ [chainListM dummyMsg Continuation.sportsType 10,
               chainListM dummyMsg Continuation.bookType 10,
               chainListM dummyMsg Continuation.favType 10,
               chainListM dummyMsg Continuation.artist 10],
         2 ≤ ch.length ∧ ch.length ≤ 6)
    ∧ ((runCont Continuation.newHobby st0 m).map (fun s => s.outbox)
        = some [(m.chat.id, "Great to know!")])
    ∧ ((runCont Continuation.favBook st0 m).map (fun s => s.outbox)
        = some [(m.chat.id, "Great to know")])
    ∧ ((runCont Continuation.favSong st0 m).map (fun s => s.outbox)
        = some [(m.chat.id, "Great choice!")])
    ∧ ((runCont Continuation.eventArt st0 m).map (fun s => s.outbox)
        = some [(m.chat.id, "Great to know!")]) := by
  refine ⟨⟨nextContM_sportsType m, nextContM_favoriteTeam m, nextContM_currentSeason m,
      nextContM_nextSport m, nextContM_newSport m, nextContM_newHobby m⟩,
    ⟨nextContM_bookType m, nextContM_favBook m⟩,
    ⟨nextContM_favType m, nextContM_favSong m⟩,
    ⟨nextContM_artist m, nextContM_eventArt m⟩,
    rfl, rfl, rfl, rfl, by decide, ?_, ?_, ?_, ?_⟩ <;>
    simp [runCont, handle_new_hobby, handle_fav_book, handle_fav_song, handle_event_art,
      reply_to, sendMessage, st0]

/-- C6: fetch_bbc_headlines never propagates a failure. It is a total
function of the oracle outcomes; when the HTTP fetch fails it returns the
single-element explanatory list for that error, and when the page parse
fails it returns the single-element explanatory list for that error. -/
theorem fetch_bbc_headlines_total (limit : Int) (http : Except String String)
    (parse : String → Except String (List String)) :
    (∀ e, http = Except.error e →
        fetch_bbc_headlines limit http parse = ["Could not fetch news: " ++ e])
    ∧ (∀ page e, http = Except.ok page → parse page = Except.error e →
        fetch_bbc_headlines limit http parse = ["Error parsing news page: " ++ e]) := by
  constructor
  · intro e he
    simp [fetch_bbc_headlines, he]
  · intro page e hp hpe
    simp [fetch_bbc_headlines, hp, hpe]

/-- C6 witness: concrete failing HTTP fetch and concrete failing parse. -/
theorem fetch_bbc_headlines_total_witness :
    fetch_bbc_headlines 10 (Except.error "boom") (fun _ => Except.ok [])
        = ["Could not fetch news: boom"]
    ∧ fetch_bbc_headlines 10 (Except.ok "page") (fun _ => Except.error "bad html")
        = ["Error parsing news page: bad html"] :=
  ⟨(fetch_bbc_headlines_total 10 (Except.error "boom") (fun _ => Except.ok [])).1 "boom" rfl,
   (fetch_bbc_headlines_total 10 (Except.ok "page") (fun _ => Except.error "bad html")).2
     "page" "bad html" rfl rfl⟩

/-- Outbox effect of a single send. -/
theorem sendMessage_outbox (s : BotState) (c : Int) (t : String) :
    (sendMessage s c t).outbox = s.outbox ++ [(c, t)] := rfl

/-- C7: the extra command and each of its six sub-list commands send, in a
non-private chat, exactly one refusal message and none of the list
content; in a private chat they send the list content (the sub-command
list for extra, every item for the sub-commands). -/
theorem extra_commands_private_only (s : BotState) (m : Message) :
    (extra s m).outbox = s.outbox ++
        [(m.chat.id,
          if m.chat.type = "private" then
            "Here are the extra commands:\n/flower, /animal, /food, /wonder, /vehicle, /country"
          else "The /extra command and its subcommands are not available in group chats.")]
    ∧ (flower s m).outbox = s.outbox ++
        (if m.chat.type = "private" then flowers.map (fun t => (m.chat.id, t))
         else [(m.chat.id, "This command is only available in private chats.")])
    ∧ (animal s m).outbox = s.outbox ++
        (if m.chat.type = "private" then animals.map (fun t => (m.chat.id, t))
         else [(m.chat.id, "This command is only available in private chats.")])
    ∧ (food s m).outbox = s.outbox ++
        (if m.chat.type = "private" then foods.map (fun t => (m.chat.id, t))
         else [(m.chat.id, "This command is only available in private chats.")])
    ∧ (vehicle s m).outbox = s.outbox ++
        (if m.chat.type = "private" then vehicles.map (fun t => (m.chat.id, t))
         else [(m.chat.id, "This command is only available in private chats.")])
    ∧ (country s m).outbox = s.outbox ++
        (if m.chat.type = "private" then countries.map (fun t => (m.chat.id, t))
         else [(m.chat.id, "This command is only available in private chats.")])
    ∧ (wonder s m).outbox = s.outbox ++
        (if m.chat.type = "private" then wonders.map (fun t => (m.chat.id, t))
         else [(m.chat.id, "This command is only available in private chats.")]) := by
  by_cases hp : m.chat.type = "private" <;>
    simp [extra, flower, animal, food, vehicle, country, wonder, send_list_privately,
      sendMessage_outbox, foldl_send_outbox, hp]

/-- C8: when a fired reminder's transport send raises, the failure is
logged and swallowed: the callback returns normally with the failure
flagged, the one-shot timer is consumed (removed from the outstanding
tasks), and no retry or rescheduled task is created. -/
theorem reminder_send_failure_swallowed (t : ReminderTask)
    (pending : List ReminderTask) (transport : Int → String → Except String Unit)
    (e : String) (hfail : transport t.chatId (reminderMessage t) = Except.error e) :
    fireSend t transport = true
    ∧ fireTimer (t :: pending) t transport = (pending, true) := by
  constructor
  · simp [fireSend, hfail]
  · simp [fireTimer, fireSend, hfail]

/-- C8 witness: a concrete task whose transport send fails. -/
theorem reminder_send_failure_swallowed_witness :
    fireSend { chatId := 5, delaySeconds := 1800, text := some "buy milk" }
        (fun _ _ => Except.error "net down") = true
    ∧ fireTimer [{ chatId := 5, delaySeconds := 1800, text := some "buy milk" }]
        { chatId := 5, delaySeconds := 1800, text := some "buy milk" }
        (fun _ _ => Except.error "net down") = ([], true) :=
  reminder_send_failure_swallowed
    { chatId := 5, delaySeconds := 1800, text := some "buy milk" } []
    (fun _ _ => Except.error "net down") "net down" rfl

/-- C9: an inbound free-text message with no pending continuation whose
text is not a command token and not one of the four keywords Sports,
Reading, Music, Art is silently ignored: the dispatcher returns the state
unchanged, so nothing is sent and nothing is registered. -/
theorem unmatched_free_text_ignored (env : Env) (s : BotState) (m : Message)
    (hreg : s.registry m.chat.id = none)
    (hcmd : commandOf (pyOr m.text "") = none)
    (hkw : pyOr m.text "" ∉ (["Sports", "Reading", "Music", "Art"] : List String)) :
    processMessage env s m = some s := by
  have h1 : pyOr m.text "" ≠ "Sports" := fun h => hkw (by simp [h])
  have h2 : pyOr m.text "" ≠ "Reading" := fun h => hkw (by simp [h])
  have h3 : pyOr m.text "" ≠ "Music" := fun h => hkw (by simp [h])
  have h4 : pyOr m.text "" ≠ "Art" := fun h => hkw (by simp [h])
  simp [processMessage, take, hreg, hcmd, handle_message, h1, h2, h3, h4]

/-- C9 witness: the concrete non-keyword text "hello there" from a fresh
chat is ignored. -/
theorem unmatched_free_text_ignored_witness :
    processMessage envDefault st0 (textMsg 0 "private" "hello there") = some st0 :=
  unmatched_free_text_ignored envDefault st0 (textMsg 0 "private" "hello there")
    rfl rfl (by decide)

/-- Duplicates are never collected: the cleaning loop preserves freedom
from duplicates of the accumulator. -/
theorem cleanLoop_nodup (limit : Int) (hs : List String) :
    ∀ acc : List String, acc.Nodup → (cleanLoop limit acc hs).Nodup := by
  induction hs with
  | nil => intro acc hacc; simpa [cleanLoop] using hacc
  | cons h t ih =>
    intro acc hacc
    by_cases h5 : h.length < 5
    · simpa [cleanLoop, h5] using ih acc hacc
    · by_cases hmem : h ∈ acc
      · simpa [cleanLoop, h5, hmem] using ih acc hacc
      · have hacc' : (acc ++ [h]).Nodup := by
          rw [List.nodup_append]
          exact ⟨hacc, List.nodup_singleton h,
            fun a ha hb => by
              have : a = h := by simpa using hb
              subst this; exact hmem ha⟩
        by_cases hlim : limit ≤ (acc.length : Int) + 1
        · simpa [cleanLoop, h5, hmem, hlim] using hacc'
        · simpa [cleanLoop, h5, hmem, hlim] using ih (acc ++ [h]) hacc'

/-- When the accumulator is still under the limit, the cleaning loop never
grows the collection beyond the limit. -/
theorem cleanLoop_length_le (limit : Int) (hs : List String) :
    ∀ acc : List String, (acc.length : Int) < limit →
      ((cleanLoop limit acc hs).length : Int) ≤ limit := by
  induction hs with
  | nil =>
    intro acc hacc
    simp [cleanLoop]
    omega
  | cons h t ih =>
    intro acc hacc
    by_cases h5 : h.length < 5
    · simpa [cleanLoop, h5] using ih acc hacc
    · by_cases hmem : h ∈ acc
      · simpa [cleanLoop, h5, hmem] using ih acc hacc
      · by_cases hlim : limit ≤ (acc.length : Int) + 1
        · have hle : ((acc ++ [h]).length : Int) ≤ limit := by
            simp only [List.length_append, List.length_singleton, Nat.cast_add, Nat.cast_one]
            omega
          simpa [cleanLoop, h5, hmem, hlim] using hle
        · have hlt : ((acc ++ [h]).length : Int) < limit := by
            simp only [List.length_append, List.length_singleton, Nat.cast_add, Nat.cast_one]
            omega
          simpa [cleanLoop, h5, hmem, hlim] using ih (acc ++ [h]) hlt

/-- Every string the cleaning loop adds has length at least 5. -/
theorem cleanLoop_all_long (limit : Int) (hs : List String) :
    ∀ acc : List String, (∀ x ∈ acc, 5 ≤ x.length) →
      ∀ x ∈ cleanLoop limit acc hs, 5 ≤ x.length := by
  induction hs with
  | nil => intro acc hacc; simpa [cleanLoop] using hacc
  | cons h t ih =>
    intro acc hacc
    by_cases h5 : h.length < 5
    · simpa [cleanLoop, h5] using ih acc hacc
    · by_cases hmem : h ∈ acc
      · simpa [cleanLoop, h5, hmem] using ih acc hacc
      · have hacc' : ∀ x ∈ acc ++ [h], 5 ≤ x.length := by
          intro x hx
          rcases List.mem_append.1 hx with hx | hx
          · exact hacc x hx
          · have : x = h := by simpa using hx
            subst this; omega
        by_cases hlim : limit ≤ (acc.length : Int) + 1
        · simpa [cleanLoop, h5, hmem, hlim] using hacc'
        · simpa [cleanLoop, h5, hmem, hlim] using ih (acc ++ [h]) hacc'

/-- C10 (counterexample): with limit 0 and a scrape finding one valid
headline, fetch_bbc_headlines returns one element, exceeding the limit:
the break runs only after the first append. -/
theorem fetch_limit_zero_exceeds_limit :
    fetch_bbc_headlines 0 (Except.ok "page") (fun _ => Except.ok ["Headline one"])
        = ["Headline one"]
    ∧ ¬ (((fetch_bbc_headlines 0 (Except.ok "page")
          (fun _ => Except.ok ["Headline one"])).length : Int) ≤ 0) := by
  constructor
  · rfl
  · decide

/-- C10 (amended): for every limit and oracle outcome the result of
fetch_bbc_headlines is non-empty and free of duplicate strings; when the
limit is at least 1 the result has at most limit elements; and on the
successful-scrape path (fetch and parse succeed and the cleaning loop
collects something) every returned headline has length at least 5. -/
theorem fetch_postconditions (limit : Int) (http : Except String String)
    (parse : String → Except String (List String)) :
    fetch_bbc_headlines limit http parse ≠ []
    ∧ (fetch_bbc_headlines limit http parse).Nodup
    ∧ (1 ≤ limit → ((fetch_bbc_headlines limit http parse).length : Int) ≤ limit)
    ∧ (∀ page hs, http = Except.ok page → parse page = Except.ok hs →
        cleanLoop limit [] hs ≠ [] →
        ∀ x ∈ fetch_bbc_headlines limit http parse, 5 ≤ x.length) := by
  rcases http with e | page
  · refine ⟨by simp [fetch_bbc_headlines], by simp [fetch_bbc_headlines], ?_, ?_⟩
    · intro hl
      simpa [fetch_bbc_headlines] using hl
    · intro pg hs h1
      exact absurd h1 (by simp)
  · rcases hp : parse page with e' | hs
    · refine ⟨by simp [fetch_bbc_headlines, hp], by simp [fetch_bbc_headlines, hp], ?_, ?_⟩
      · intro hl
        simpa [fetch_bbc_headlines, hp] using hl
      · intro pg hs' h1 h2
        injection h1 with h; subst h
        rw [hp] at h2
        simp at h2
    · by_cases hc : cleanLoop limit [] hs = []
      · refine ⟨by simp [fetch_bbc_headlines, hp, hc],
          by simp [fetch_bbc_headlines, hp, hc], ?_, ?_⟩
        · intro hl
          simpa [fetch_bbc_headlines, hp, hc] using hl
        · intro pg hs' h1 h2 h3
          injection h1 with h; subst h
          rw [hp] at h2
          injection h2 with h'; subst h'
          exact absurd hc h3
      · have hres : fetch_bbc_headlines limit (Except.ok page) parse
            = cleanLoop limit [] hs := by
          simp [fetch_bbc_headlines, hp, hc]
        refine ⟨by rw [hres]; exact hc,
          by rw [hres]; exact cleanLoop_nodup limit hs [] List.nodup_nil, ?_, ?_⟩
        · intro hl
          rw [hres]
          apply cleanLoop_length_le limit hs []
          simpa using by omega
        · intro pg hs' h1 h2 h3 x hx
          injection h1 with h; subst h
          rw [hp] at h2
          injection h2 with h'; subst h'
          rw [hres] at hx
          exact cleanLoop_all_long limit hs [] (by simp) x hx

/-- C10 witness: the amended postconditions evaluated on a concrete scrape
containing a short string and a duplicate. -/
theorem fetch_postconditions_witness :
    fetch_bbc_headlines 10 (Except.ok "page")
        (fun _ => Except.ok ["Headline one", "Headline one", "abc", "Second headline"]) ≠ []
    ∧ (fetch_bbc_headlines 10 (Except.ok "page")
        (fun _ => Except.ok ["Headline one", "Headline one", "abc", "Second headline"])).Nodup
    ∧ ((fetch_bbc_headlines 10 (Except.ok "page")
        (fun _ => Except.ok ["Headline one", "Headline one", "abc", "Second headline"])).length
          : Int) ≤ 10
    ∧ ∀ x ∈ fetch_bbc_headlines 10 (Except.ok "page")
        (fun _ => Except.ok ["Headline one", "Headline one", "abc", "Second headline"]),
        5 ≤ x.length := by
  have h := fetch_postconditions 10 (Except.ok "page")
    (fun _ => Except.ok ["Headline one", "Headline one", "abc", "Second headline"])
  exact ⟨h.1, h.2.1, h.2.2.1 (by norm_num),
    h.2.2.2 "page" ["Headline one", "Headline one", "abc", "Second headline"]
      rfl rfl (by decide)⟩
